import Mathlib

/-!
Verification of the homework-status Telegram bot (`src/homework.py`) against
its natural-language specification.

The Python module is shallowly embedded: JSON values become an inductive
type, Python exceptions become an error inductive, fallible functions
return `Except`, and the poll loop of `main` becomes an explicit iteration
function over a small state record.  External effects (the HTTP layer and
the Telegram send) are modelled as per-iteration environment inputs.
-/

namespace HomeworkBot

/-- Python/JSON values as they occur in this program: the parsed API
response body, homework records, and the values bound to `timestamp`. -/
inductive JSON where
  | null : JSON
  | bool (b : Bool) : JSON
  | int (n : Int) : JSON
  | str (s : String) : JSON
  | list (xs : List JSON) : JSON
  | dict (kvs : List (String × JSON)) : JSON

/-- The exceptions this program raises, one constructor per raise site /
exception class reached by the code.

* `keyError` — a `KeyError` carrying one string argument: the dict
  subscript `d[k]` on a missing key, and the `KeyError(f'Не заданы...')`
  raised by `check_tokens` (the spec calls the latter `ConfigurationError`).
* `typeError` — a `TypeError`: the one raised by `check_response`
  (the spec's `MalformedResponseError`), and the interpreter-raised ones
  for bad subscripts / unhashable dict keys.
* `attributeError` / `indexError` — interpreter-raised for `.get` on a
  non-dict and out-of-range list indexing.
* `noHomeworkDetected` — the imported `NoHomeworkDetectedError`.
* `cantSendMessage` — the imported `CantSendMessageError`.
* `unknownStatus` — the `KeyError('Статуса %s нет в словаре', status)`
  raised at the end of `parse_status` (the spec's `UnknownStatusError`);
  it carries the offending status value.
* `requestException` — the `requests.exceptions.RequestException` that the
  handler in `get_api_answer` tries to build (spec: `EndpointUnavailableError`).
* `httpError` — the `requests.HTTPError` from `response.raise_for_status()`,
  carrying the HTTP status code.
* `unboundLocal` — the `UnboundLocalError` the interpreter raises when a
  local variable is read before any assignment to it has executed. -/
inductive Exc where
  | keyError (arg : String) : Exc
  | typeError (message : String) : Exc
  | attributeError (message : String) : Exc
  | indexError (message : String) : Exc
  | noHomeworkDetected (message : String) : Exc
  | cantSendMessage (message : String) : Exc
  | unknownStatus (status : JSON) : Exc
  | requestException (fmt : String) (status : Nat) : Exc
  | httpError (status : Nat) : Exc
  | unboundLocal (varName : String) : Exc

/-- Python truthiness (`if x:`) of the values in play: empty
containers/strings, `0`, `False` and `None` are falsy. -/
def pyTruthy : JSON → Bool
  | .null => false
  | .bool b => b
  | .int n => n != 0
  | .str s => !s.isEmpty
  | .list xs => !xs.isEmpty
  | .dict kvs => !kvs.isEmpty

/-- `isinstance(x, dict)`. -/
def JSON.isDict : JSON → Bool
  | .dict _ => true
  | _ => false

/-- `isinstance(x, list)`. -/
def JSON.isList : JSON → Bool
  | .list _ => true
  | _ => false

/-- First binding of a key in a dict's association list (Python dict
literals and parsed JSON objects have unique keys). -/
def dictLookup (kvs : List (String × JSON)) (key : String) : Option JSON :=
  match kvs with
  | [] => none
  | (k, v) :: rest => if k = key then some v else dictLookup rest key

/-- Python `d.get(key)`: `None` when the key is absent; calling `.get` on a
non-dict raises `AttributeError`. -/
def pyGet (j : JSON) (key : String) : Except Exc JSON :=
  match j with
  | .dict kvs =>
    match dictLookup kvs key with
    | some v => .ok v
    | none => .ok .null
  | _ => .error (.attributeError "object has no attribute get")

/-- Python `d[key]` for a string key: `KeyError` when absent, `TypeError`
when the value is not subscriptable by a string. -/
def pyGetItem (j : JSON) (key : String) : Except Exc JSON :=
  match j with
  | .dict kvs =>
    match dictLookup kvs key with
    | some v => .ok v
    | none => .error (.keyError key)
  | _ => .error (.typeError "object is not subscriptable by str")

/-- Python `xs[i]` for a non-negative int index. -/
def pyIndex (j : JSON) (i : Nat) : Except Exc JSON :=
  match j with
  | .list xs =>
    match xs.get? i with
    | some v => .ok v
    | none => .error (.indexError "list index out of range")
  | .null => .error (.typeError "NoneType object is not subscriptable")
  | _ => .error (.typeError "object is not subscriptable by int")

/-- Reading a Python local variable inside a function body: if no
assignment to it has executed yet it is unbound, and the read raises
`UnboundLocalError`. -/
def readLocal (varName : String) (slot : Option α) : Except Exc α :=
  match slot with
  | some v => .ok v
  | none => .error (.unboundLocal varName)

mutual

/-- Python `repr` of the embedded values. -/
def pyRepr : JSON → String
  | .null => "None"
  | .bool b => if b then "True" else "False"
  | .int n => toString n
  | .str s => "\x27" ++ s ++ "\x27"
  | .list xs => "[" ++ pyReprElems xs ++ "]"
  | .dict kvs => "\x7b" ++ pyReprPairs kvs ++ "\x7d"

/-- `repr` of list elements, comma-separated. -/
def pyReprElems : List JSON → String
  | [] => ""
  | [x] => pyRepr x
  | x :: xs => pyRepr x ++ ", " ++ pyReprElems xs

/-- `repr` of dict items, comma-separated. -/
def pyReprPairs : List (String × JSON) → String
  | [] => ""
  | [(k, v)] => "\x27" ++ k ++ "\x27: " ++ pyRepr v
  | (k, v) :: kvs => "\x27" ++ k ++ "\x27: " ++ pyRepr v ++ ", " ++ pyReprPairs kvs

end

/-- Python `str` of the embedded values (`str` on containers is `repr`). -/
def pyStr : JSON → String
  | .str s => s
  | j => pyRepr j

/-- Python `str(exc)` for the exceptions in play, used only to build the
`f'Сбой в работе программы: {error}'` notification text.  A one-argument
`KeyError` prints the `repr` of its argument; the two-argument `KeyError`
and `RequestException` print their argument tuple. -/
def excStr : Exc → String
  | .keyError arg => "\x27" ++ arg ++ "\x27"
  | .typeError m => m
  | .attributeError m => m
  | .indexError m => m
  | .noHomeworkDetected m => m
  | .cantSendMessage m => m
  | .unknownStatus status =>
      "(\x27Статуса %s нет в словаре\x27, " ++ pyRepr status ++ ")"
  | .requestException fmt status =>
      "(\x27" ++ fmt ++ "\x27, " ++ toString status ++ ")"
  | .httpError status => toString status ++ " Error"
  | .unboundLocal varName =>
      "cannot access local variable \x27" ++ varName ++
        "\x27 where it is not associated with a value"

/-! ## Module-level configuration (`homework.py` lines 16-28) -/

/-- The three module-level globals.  `os.getenv` yields `none` when the
environment variable is unset and `some s` (possibly `some ""`) when it is
set; the module always assigns all three names, so each is in `globals()`. -/
structure Env where
  PRACTICUM_TOKEN : Option String
  TELEGRAM_TOKEN : Option String
  TELEGRAM_CHAT_ID : Option String

/-- `globals().get(token)` restricted to the three token names. -/
def Env.globalsGet (env : Env) : String → Option String
  | "PRACTICUM_TOKEN" => env.PRACTICUM_TOKEN
  | "TELEGRAM_TOKEN" => env.TELEGRAM_TOKEN
  | "TELEGRAM_CHAT_ID" => env.TELEGRAM_CHAT_ID
  | _ => none

/-- `HOMEWORK_VERDICTS`, the fixed three-entry status table. -/
def HOMEWORK_VERDICTS : List (String × String) :=
  [("approved", "Работа проверена: ревьюеру всё понравилось. Ура!"),
   ("reviewing", "Работа взята на проверку ревьюером."),
   ("rejected", "Работа проверена: у ревьюера есть замечания.")]

/-- `HOMEWORK_VERDICTS[status]`: a Python dict subscript whose keys are the
three status strings.  An unhashable key (list/dict) raises `TypeError`;
any other value that is not one of the three keys raises `KeyError(status)`
(represented as `.unknownStatus status`, since the only consumer of this
`KeyError` is the handler in `parse_status` that re-raises it with the
status attached — see `parse_status`). -/
def verdictsGetItem (status : JSON) : Except Exc String :=
  match status with
  | .list _ => .error (.typeError "unhashable type: list")
  | .dict _ => .error (.typeError "unhashable type: dict")
  | .str s =>
    match HOMEWORK_VERDICTS.lookup s with
    | some verdict => .ok verdict
    | none => .error (.unknownStatus (.str s))
  | other => .error (.unknownStatus other)

/-! ## `check_tokens` (lines 38-57) -/

/-- `check_tokens`: collects the token names for which
`token not in globals() or globals().get(token) is None` holds (the first
disjunct is always false because the module assigns all three names) and
raises a `KeyError` listing them when the list is non-empty.  Note the
test is `is None`: an empty-string value passes. -/
def check_tokens (env : Env) : Except Exc Unit :=
  let missing_tokens :=
    ["PRACTICUM_TOKEN", "TELEGRAM_TOKEN", "TELEGRAM_CHAT_ID"].filter
      (fun token => (env.globalsGet token).isNone)
  if !missing_tokens.isEmpty then
    .error (.keyError
      ("Не заданы следующие токены - " ++
        String.intercalate " " missing_tokens ++ ","))
  else
    .ok ()

/-! ## `send_message` (lines 60-76) -/

/-- `send_message`: hands the text to `bot.send_message`; whether that
Telegram call succeeds is an environment input (`delivered`).  On a
`TelegramError` it raises `CantSendMessageError`.  The returned list
records the single message passed to the bot. -/
def send_message (delivered : Bool) (text : String) :
    List String × Except Exc Unit :=
  ([text],
   if delivered then .ok ()
   else .error (.cantSendMessage "Невозможно отправить сообщение в Telegram"))

/-! ## `get_api_answer` (lines 78-107) -/

/-- What the HTTP layer does on one call to `requests.get`: either the call
itself raises a `RequestException`, or it returns a response with a status
code and a parsed JSON body. -/
inductive ApiOutcome where
  | transportError : ApiOutcome
  | response (status : Nat) (body : JSON) : ApiOutcome

/-- `get_api_answer`: the local `response` is bound only if `requests.get`
returns.  When the call raises, the `except` branch builds
`RequestException('Ошибка при запросе к API: %s', response.status_code)`,
which reads the still-unbound local `response`, so the branch raises
`UnboundLocalError` instead.  Otherwise: `raise_for_status()` raises
`HTTPError` for 4xx/5xx codes (it is a no-op for other non-200 codes, so
the function still returns the body for those), and the body is returned. -/
def get_api_answer (outcome : ApiOutcome) : Except Exc JSON :=
  let response : Option (Nat × JSON) :=
    match outcome with
    | .transportError => none
    | .response status body => some (status, body)
  match outcome with
  | .transportError =>
    match readLocal "response" response with
    | .error e => .error e
    | .ok (status, _) =>
      .error (.requestException "Ошибка при запросе к API: %s" status)
  | .response status body =>
    if status ≠ 200 then
      if 400 ≤ status ∧ status < 600 then .error (.httpError status)
      else .ok body
    else .ok body

/-! ## `check_response` (lines 110-126) -/

/-- `check_response`: accepts iff `isinstance(response, dict)`, the literal
keys `('current_date', 'homeworks')` are all truthy (they are non-empty
string literals, so this conjunct is vacuously true and checks nothing
about the response), and `response.get('homeworks')` is a list; then
returns `response['homeworks']`.  Otherwise raises `TypeError`. -/
def check_response (response : JSON) : Except Exc JSON :=
  if response.isDict &&
      (["current_date", "homeworks"].all fun key => !key.isEmpty) &&
      (match pyGet response "homeworks" with
       | .ok v => v.isList
       | .error _ => false) then
    match pyGetItem response "homeworks" with
    | .ok v => .ok v
    | .error e => .error e
  else
    .error (.typeError "Структура данных не соответствует ожиданиям")

/-! ## `parse_status` (lines 129-146) -/

/-- `parse_status`: first try-block evaluates `homework['homework_name']`
then `homework['status']`; a `KeyError` from either is replaced by
`NoHomeworkDetectedError('Домашней работы нет')` (any other exception,
e.g. a `TypeError` from subscripting a non-dict, propagates).  The second
try-block looks the status up in `HOMEWORK_VERDICTS`; a `KeyError` there
is re-raised as `KeyError('Статуса %s нет в словаре', status)`
(`.unknownStatus status`).  On success it returns
`f'Изменился статус проверки работы "{name}". {HOMEWORK_VERDICTS[status]}'`. -/
def parse_status (homework : JSON) : Except Exc String :=
  let fields : Except Exc (JSON × JSON) :=
    match pyGetItem homework "homework_name" with
    | .error e => .error e
    | .ok name =>
      match pyGetItem homework "status" with
      | .error e => .error e
      | .ok status => .ok (name, status)
  match fields with
  | .error (.keyError _) => .error (.noHomeworkDetected "Домашней работы нет")
  | .error e => .error e
  | .ok (name, status) =>
    match verdictsGetItem status with
    | .ok verdict =>
      .ok ("Изменился статус проверки работы \x22" ++ pyStr name ++
        "\x22. " ++ verdict)
    | .error e => .error e

/-! ## The poll loop `main` (lines 149-172)

`main` keeps two mutable locals across iterations: `timestamp` (an int at
start, thereafter whatever `response['current_date']` held) and
`error_message` (initially the string `''`, thereafter the last exception
*object* stored by the handler).  Python compares `error != error_message`
with the default, identity-based equality of exception objects, so the
embedding gives every raised exception object an allocation identity: the
index of the iteration that raised it.  Two objects are `==` only if they
are the same allocation. -/

/-- The value of the `error_message` local: the initial `''` or an
exception object, tagged with the index of the iteration that raised
(allocated) it. -/
inductive Marker where
  | emptyStr : Marker
  | excObj (allocId : Nat) (e : Exc) : Marker

/-- Python `error != error_message` where `error` is the exception object
freshly raised in iteration `allocId`:  comparing an exception with the
string `''` is `True`, and comparing two exception objects is `False` only
when they are the same allocation (exceptions inherit identity `__eq__`). -/
def excNeMarker (allocId : Nat) : Marker → Bool
  | .emptyStr => true
  | .excObj j _ => allocId != j

/-- The loop-carried state of `main`. -/
structure LoopState where
  timestamp : JSON
  error_message : Marker

/-- The external world's behaviour during one iteration: what the HTTP
layer does, and whether each of the (at most two) Telegram sends of the
iteration is delivered. -/
structure IterEnv where
  api : ApiOutcome
  statusSendDelivered : Bool
  errorSendDelivered : Bool

/-- One iteration's outcome: the texts handed to `bot.send_message` in
order, the state carried to the next iteration, and the exception, if any,
that escaped the `except Exception` handler (crashing `main`). -/
structure IterResult where
  sent : List String
  state : LoopState
  crashed : Option Exc

/-- The `try` block of one loop iteration (lines 156-164):
`response = get_api_answer(...)`, `homeworks = check_response(response)`,
`if homeworks: send_message(bot, parse_status(response.get('homeworks')[0]))`,
`timestamp = response['current_date']`.  Returns the messages handed to
the bot and either the new `timestamp` value or the raised exception. -/
def runTry (env : IterEnv) : List String × Except Exc JSON :=
  match get_api_answer env.api with
  | .error e => ([], .error e)
  | .ok response =>
    match check_response response with
    | .error e => ([], .error e)
    | .ok homeworks =>
      if pyTruthy homeworks then
        match ((match pyGet response "homeworks" with
                | .error e => .error e
                | .ok hws => pyIndex hws 0) : Except Exc JSON) with
        | .error e => ([], .error e)
        | .ok hw0 =>
          match parse_status hw0 with
          | .error e => ([], .error e)
          | .ok text =>
            let (attempts, sendResult) :=
              send_message env.statusSendDelivered text
            match sendResult with
            | .error e => (attempts, .error e)
            | .ok _ =>
              match pyGetItem response "current_date" with
              | .error e => (attempts, .error e)
              | .ok cd => (attempts, .ok cd)
      else
        match pyGetItem response "current_date" with
        | .error e => ([], .error e)
        | .ok cd => ([], .ok cd)

/-- One full iteration of the `while True` body, `iterId` being the index
of the iteration (and hence the allocation identity of any exception object
it raises).  The handler (lines 165-169) runs when the `try` block raises:
if `error != error_message` it sends `f'Сбой в работе программы: {error}'`
and — only after that send returns — executes `error_message = error`.  A
`CantSendMessageError` from this secondary send leaves the handler (and
`main`) with no catch, so it escapes after the `finally` sleep. -/
def iterate (env : IterEnv) (iterId : Nat) (st : LoopState) : IterResult :=
  match runTry env with
  | (attempts, .ok cd) =>
    { sent := attempts, state := { st with timestamp := cd }, crashed := none }
  | (attempts, .error e) =>
    if excNeMarker iterId st.error_message then
      let message := "Сбой в работе программы: " ++ excStr e
      let (attempts2, sendResult) :=
        send_message env.errorSendDelivered message
      match sendResult with
      | .ok _ =>
        { sent := attempts ++ attempts2,
          state := { st with error_message := .excObj iterId e },
          crashed := none }
      | .error e2 =>
        { sent := attempts ++ attempts2, state := st, crashed := some e2 }
    else
      { sent := attempts, state := st, crashed := none }

/-- A finite prefix of the infinite loop: runs one iteration per
environment, stopping early if an iteration crashes `main`.  Returns all
messages handed to the bot, the final state, and the escaping exception if
any. -/
def runLoop (envs : List IterEnv) (iterId : Nat) (st : LoopState) :
    List String × LoopState × Option Exc :=
  match envs with
  | [] => ([], st, none)
  | env :: rest =>
    let r := iterate env iterId st
    match r.crashed with
    | some e => (r.sent, r.state, some e)
    | none =>
      let (msgs, final, crash) := runLoop rest (iterId + 1) r.state
      (r.sent ++ msgs, final, crash)

/-- The part of `main` before the loop (lines 151-154): `check_tokens()`
may raise, which aborts the process before any polling; otherwise the loop
starts with `timestamp = int(time.time())` and `error_message = ''`. -/
def mainStartup (env : Env) (startTime : Int) : Except Exc LoopState :=
  match check_tokens env with
  | .error e => .error e
  | .ok _ => .ok { timestamp := .int startTime, error_message := .emptyStr }

/-! ## Specification-side definitions used to state the claims -/

/-- Specification-side enumeration of the token names whose value is
`none` (environment variable unset), in the order the code checks them. -/
def unsetNames (env : Env) : List String :=
  (if env.PRACTICUM_TOKEN = none then ["PRACTICUM_TOKEN"] else []) ++
  (if env.TELEGRAM_TOKEN = none then ["TELEGRAM_TOKEN"] else []) ++
  (if env.TELEGRAM_CHAT_ID = none then ["TELEGRAM_CHAT_ID"] else [])

/-- Specification-side description of the messages an iteration hands to
the bot inside the `try` block, as a function of the *first* homework
record alone: the formatted status message when translation succeeds,
nothing otherwise. -/
def firstRecordSends (hw0 : JSON) : List String :=
  match parse_status hw0 with
  | .ok text => [text]
  | .error _ => []

/-! ## Claim theorems -/

/-- C9: when the HTTP request itself raises (so the local `response` was
never bound), the `except` branch of `get_api_answer` raises
`UnboundLocalError` for `response` — not the `RequestException` it was
trying to construct with `response.status_code`. -/
theorem transport_error_raises_unbound_local :
    get_api_answer .transportError = .error (.unboundLocal "response") ∧
    ∀ (fmt : String) (status : Nat),
      get_api_answer .transportError ≠ .error (.requestException fmt status) := by
  constructor
  · rfl
  · intro fmt status h
    exact Exc.noConfusion (Except.error.inj h)

/-- C4 (code evaluation at the failing input): `check_response` accepts the
mapping `{"homeworks": []}` even though it has no `"current_date"` key,
because `all(key for key in ('current_date', 'homeworks'))` only tests the
truthiness of the literal key strings.  The claim (and the function's own
docstring) say such a response must be rejected. -/
theorem missing_current_date_accepted :
    check_response (.dict [("homeworks", .list [])]) = .ok (.list []) := by
  rfl

/-- C1 (code evaluation at the failing input): two consecutive iterations
raise the *same* error description (`TypeError` from `check_response` on
the body `{"homeworks": "oops"}`), yet the failure notification is handed
to the bot on BOTH iterations: `error != error_message` compares the fresh
exception object against `''` and then against the previous iteration's
exception object, and exception equality is identity-based, so the guard
is always true.  The claim requires exactly one notification. -/
theorem same_error_two_iterations_two_notifications :
    (runLoop
      [⟨.response 200 (.dict [("homeworks", .str "oops")]), true, true⟩,
       ⟨.response 200 (.dict [("homeworks", .str "oops")]), true, true⟩] 0
      ⟨.int 0, .emptyStr⟩).1 =
    ["Сбой в работе программы: Структура данных не соответствует ожиданиям",
     "Сбой в работе программы: Структура данных не соответствует ожиданиям"] := by
  rfl

/-- C2 (counterexample): all three secrets set to the empty string — the
claim says the configuration check must fail, but `check_tokens` only
tests `is None`, so it succeeds. -/
theorem empty_string_tokens_pass_check :
    check_tokens ⟨some "", some "", some ""⟩ = .ok () := by
  rfl

/-- C2 (amended): `check_tokens` succeeds iff every secret is set
(non-`None`); an empty-string value counts as set.  When some secrets are
unset it raises a `KeyError` whose message lists exactly the unset names,
and `main` then aborts before constructing the bot or entering the loop. -/
theorem check_tokens_fails_iff_some_token_unset (env : Env) :
    (check_tokens env = .ok () ↔ unsetNames env = []) ∧
    (unsetNames env ≠ [] →
      check_tokens env =
        .error (.keyError ("Не заданы следующие токены - " ++
          String.intercalate " " (unsetNames env) ++ ","))) ∧
    (∀ startTime : Int,
      (∃ st, mainStartup env startTime = .ok st) ↔ unsetNames env = []) := by
  obtain ⟨p, t, c⟩ := env
  cases p <;> cases t <;> cases c <;>
    simp [check_tokens, unsetNames, mainStartup, Env.globalsGet]

/-- C2 (witness for the amended theorem): with only `PRACTICUM_TOKEN`
unset, the check raises the `KeyError` naming exactly that token. -/
theorem check_tokens_fails_iff_some_token_unset_witness :
    check_tokens ⟨none, some "x", some "y"⟩ =
      .error (.keyError "Не заданы следующие токены - PRACTICUM_TOKEN,") :=
  (check_tokens_fails_iff_some_token_unset ⟨none, some "x", some "y"⟩).2.1
    (by decide)

/-- C3 (counterexample): an iteration whose `try` block raises a fresh
error (description differing from the empty marker) but whose failure
notification fails to send: the claim says the last-error marker is
updated regardless, yet `error_message = error` is executed only after
`send_message` returns, so the marker keeps its previous value (and the
`CantSendMessageError` escapes the handler). -/
theorem failed_error_send_skips_marker_update :
    (runTry ⟨.response 200 (.str "nope"), true, false⟩).2 =
      .error (.typeError "Структура данных не соответствует ожиданиям") ∧
    (iterate ⟨.response 200 (.str "nope"), true, false⟩ 0
        ⟨.int 0, .emptyStr⟩).state.error_message = .emptyStr ∧
    (iterate ⟨.response 200 (.str "nope"), true, false⟩ 0
        ⟨.int 0, .emptyStr⟩).crashed =
      some (.cantSendMessage "Невозможно отправить сообщение в Telegram") :=
  ⟨rfl, rfl, rfl⟩

/-- C3 (amended): when an iteration's `try` block raises an error that
differs from the last-error marker, the marker is updated to that error
(the exception object itself) only if the failure-notification send
succeeds; if the send raises, the marker keeps its previous value and the
`CantSendMessageError` escapes the iteration's handler. -/
theorem marker_updated_only_when_error_send_succeeds
    (env : IterEnv) (iterId : Nat) (st : LoopState)
    (attempts : List String) (e : Exc)
    (hTry : runTry env = (attempts, .error e))
    (hNe : excNeMarker iterId st.error_message = true) :
    (env.errorSendDelivered = true →
      (iterate env iterId st).state.error_message = .excObj iterId e) ∧
    (env.errorSendDelivered = false →
      (iterate env iterId st).state.error_message = st.error_message ∧
      (iterate env iterId st).crashed =
        some (.cantSendMessage "Невозможно отправить сообщение в Telegram")) := by
  unfold iterate
  rw [hTry]
  cases h : env.errorSendDelivered <;> simp [hNe, send_message, h]

/-- C3 (witness for the amended theorem): at a concrete iteration whose
error send fails, the marker is left at its previous value and the send
failure escapes. -/
theorem marker_updated_only_when_error_send_succeeds_witness :
    (iterate ⟨.response 200 (.int 3), true, false⟩ 0
        ⟨.int 0, .emptyStr⟩).state.error_message = .emptyStr ∧
    (iterate ⟨.response 200 (.int 3), true, false⟩ 0
        ⟨.int 0, .emptyStr⟩).crashed =
      some (.cantSendMessage "Невозможно отправить сообщение в Telegram") :=
  (marker_updated_only_when_error_send_succeeds
      ⟨.response 200 (.int 3), true, false⟩ 0 ⟨.int 0, .emptyStr⟩ []
      (.typeError "Структура данных не соответствует ожиданиям")
      rfl rfl).2 rfl

/-- C5: for every homework record with a name field and a status field
whose value is one of the three table entries, `parse_status` returns
`Изменился статус проверки работы "<name>". <verdict sentence>`. -/
theorem parse_status_formats_known_status
    (homework name : JSON) (status verdict : String)
    (hName : pyGetItem homework "homework_name" = .ok name)
    (hStatus : pyGetItem homework "status" = .ok (.str status))
    (hVerdict : HOMEWORK_VERDICTS.lookup status = some verdict) :
    parse_status homework =
      .ok ("Изменился статус проверки работы \x22" ++ pyStr name ++
        "\x22. " ++ verdict) := by
  simp only [parse_status, hName, hStatus, verdictsGetItem, hVerdict]

/-- C5 (witness): for `{"homework_name": "hw1", "status": "approved"}`,
`parse_status` returns exactly the sentence demanded by the claim. -/
theorem parse_status_formats_known_status_witness :
    parse_status
      (.dict [("homework_name", .str "hw1"), ("status", .str "approved")]) =
    .ok "Изменился статус проверки работы \x22hw1\x22. Работа проверена: ревьюеру всё понравилось. Ура!" :=
  parse_status_formats_known_status _ (.str "hw1") "approved" _ rfl rfl rfl

/-- C6: a record with both fields but a status outside the three-entry
table makes `parse_status` fail with the unknown-status error carrying the
offending value (never returning a message); a record (mapping) lacking
the name field or the status field makes it fail with
`NoHomeworkDetectedError`. -/
theorem parse_status_rejects_bad_records :
    (∀ (homework name : JSON) (s : String),
      pyGetItem homework "homework_name" = .ok name →
      pyGetItem homework "status" = .ok (.str s) →
      HOMEWORK_VERDICTS.lookup s = none →
      parse_status homework = .error (.unknownStatus (.str s))) ∧
    (∀ kvs : List (String × JSON),
      dictLookup kvs "homework_name" = none ∨ dictLookup kvs "status" = none →
      parse_status (.dict kvs) =
        .error (.noHomeworkDetected "Домашней работы нет")) := by
  constructor
  · intro homework name s hName hStatus hMiss
    simp only [parse_status, hName, hStatus, verdictsGetItem, hMiss]
  · intro kvs h
    rcases h with h | h
    · simp [parse_status, pyGetItem, h]
    · cases hn : dictLookup kvs "homework_name" <;>
        simp [parse_status, pyGetItem, hn, h]

/-- C6 (witness): `{"homework_name": "hw1", "status": "archived"}` yields
the unknown-status failure naming `archived`, and `{"status": "approved"}`
(no name field) yields `NoHomeworkDetectedError`. -/
theorem parse_status_rejects_bad_records_witness :
    parse_status
      (.dict [("homework_name", .str "hw1"), ("status", .str "archived")]) =
      .error (.unknownStatus (.str "archived")) ∧
    parse_status (.dict [("status", .str "approved")]) =
      .error (.noHomeworkDetected "Домашней работы нет") :=
  ⟨parse_status_rejects_bad_records.1 _ (.str "hw1") "archived" rfl rfl rfl,
   parse_status_rejects_bad_records.2 [("status", .str "approved")]
     (Or.inl rfl)⟩

/-- C7: in an iteration whose response passes `check_response` with an
empty (falsy) `homeworks` sequence and which carries a `current_date`
value, no message is handed to the bot, the iteration does not crash, and
the cursor advances to that `current_date` value (the marker untouched). -/
theorem empty_homeworks_no_send_cursor_advances
    (env : IterEnv) (iterId : Nat) (st : LoopState)
    (response homeworks cd : JSON)
    (hApi : get_api_answer env.api = .ok response)
    (hCheck : check_response response = .ok homeworks)
    (hEmpty : pyTruthy homeworks = false)
    (hCd : pyGetItem response "current_date" = .ok cd) :
    iterate env iterId st =
      { sent := [],
        state := { timestamp := cd, error_message := st.error_message },
        crashed := none } := by
  unfold iterate runTry
  simp [hApi, hCheck, hEmpty, hCd]

/-- C7 (witness): a concrete iteration receiving
`{"current_date": 5, "homeworks": []}` sends nothing and advances the
cursor to `5`. -/
theorem empty_homeworks_no_send_cursor_advances_witness :
    iterate
      ⟨.response 200
        (.dict [("current_date", .int 5), ("homeworks", .list [])]),
       true, true⟩ 0 ⟨.int 0, .emptyStr⟩ =
      { sent := [], state := ⟨.int 5, .emptyStr⟩, crashed := none } :=
  empty_homeworks_no_send_cursor_advances _ 0 _
    (.dict [("current_date", .int 5), ("homeworks", .list [])])
    (.list []) (.int 5) rfl rfl rfl rfl

/-- Helper: the key-presence conjunct of `check_response` only asks
whether the literal key strings are truthy, which is always the case. -/
theorem literal_keys_truthy :
    (["current_date", "homeworks"].all fun key => !key.isEmpty) = true := by
  decide

/-- Helper: a mapping whose `"homeworks"` key holds a list passes
`check_response`, which returns that list. -/
theorem check_response_of_homeworks_list
    (kvs : List (String × JSON)) (hws : List JSON)
    (h : dictLookup kvs "homeworks" = some (.list hws)) :
    check_response (.dict kvs) = .ok (.list hws) := by
  simp [check_response, pyGet, pyGetItem, h, literal_keys_truthy,
    JSON.isDict, JSON.isList]
  decide

/-- C8: in an iteration whose response is a mapping holding a non-empty
homework list under `"homeworks"`, the messages handed to the bot inside
the `try` block are exactly `firstRecordSends` of the first record — a
function of the first record alone, so no later record is translated or
notified. -/
theorem only_first_homework_notified
    (env : IterEnv) (kvs : List (String × JSON)) (hw0 : JSON)
    (rest : List JSON)
    (hApi : get_api_answer env.api = .ok (.dict kvs))
    (hHw : dictLookup kvs "homeworks" = some (.list (hw0 :: rest))) :
    (runTry env).1 = firstRecordSends hw0 := by
  have hCheck := check_response_of_homeworks_list kvs (hw0 :: rest) hHw
  have hGet : pyGet (.dict kvs) "homeworks" = .ok (.list (hw0 :: rest)) := by
    simp [pyGet, hHw]
  unfold runTry
  cases hps : parse_status hw0 with
  | error e => simp [hApi, hCheck, hGet, pyTruthy, pyIndex,
      firstRecordSends, hps]
  | ok text =>
    cases h1 : env.statusSendDelivered <;>
      cases h2 : dictLookup kvs "current_date" <;>
        simp [hApi, hCheck, hGet, pyTruthy, pyIndex, pyGetItem,
          firstRecordSends, hps, send_message, h1, h2]

/-- C8 (witness): with two records in the list, only the first record's
message is handed to the bot. -/
theorem only_first_homework_notified_witness :
    (runTry
      ⟨.response 200
        (.dict [("homeworks", .list
            [.dict [("homework_name", .str "hw1"), ("status", .str "approved")],
             .dict [("homework_name", .str "hw2"), ("status", .str "rejected")]]),
          ("current_date", .int 9)]),
       true, true⟩).1 =
    firstRecordSends
      (.dict [("homework_name", .str "hw1"), ("status", .str "approved")]) :=
  only_first_homework_notified _ _ _
    [.dict [("homework_name", .str "hw2"), ("status", .str "rejected")]]
    rfl rfl

/-- C10: if the `try` block of an iteration raises (at any step), the loop
cursor `timestamp` is unchanged by the iteration: its assignment is the
last statement of the successful path only. -/
theorem error_leaves_timestamp_unchanged
    (env : IterEnv) (iterId : Nat) (st : LoopState)
    (attempts : List String) (e : Exc)
    (hTry : runTry env = (attempts, .error e)) :
    (iterate env iterId st).state.timestamp = st.timestamp := by
  unfold iterate
  rw [hTry]
  cases hNe : excNeMarker iterId st.error_message <;>
    cases h : env.errorSendDelivered <;> simp [send_message, hNe, h]

/-- C10 (witness): a concrete failing iteration (transport error) leaves
the cursor at its previous value. -/
theorem error_leaves_timestamp_unchanged_witness :
    (iterate ⟨.transportError, true, true⟩ 0
        ⟨.int 7, .emptyStr⟩).state.timestamp = .int 7 :=
  error_leaves_timestamp_unchanged ⟨.transportError, true, true⟩ 0
    ⟨.int 7, .emptyStr⟩ [] (.unboundLocal "response") rfl

end HomeworkBot

